import Mathlib

/-!
Verification of the device-lifecycle driver (`SimulatorDriver.js`).

The driver's asynchronous methods are embedded as pure functions over an
abstract backend (`AppleSimUtils`) and an abstract registry. Each method
returns the ordered list of observable actions it performed (backend calls,
event emissions, registry calls, log lines) together with its outcome,
modelled with `Except`: an `await` of a backend call that throws stops the
method with that error, keeping the actions performed so far.
-/

namespace Detox

abbrev Err := String

/-- JavaScript objects (device descriptors) as ordered association lists of
string keys; insertion order is observable in JS and in lodash `mapKeys`. -/
abbrev JsObj (V : Type) := List (String × V)

/-- Keys of an object, in order. -/
def objKeys {V : Type} (obj : JsObj V) : List String :=
  obj.map Prod.fst

/-- JavaScript property assignment `result[k] = v`: if `k` is already
present its value is updated in place, otherwise `(k, v)` is appended. -/
def objInsert {V : Type} (obj : JsObj V) (k : String) (v : V) : JsObj V :=
  if obj.any (fun p => p.1 == k) then
    obj.map (fun p => if p.1 == k then (k, v) else p)
  else
    obj ++ [(k, v)]

/-- Lodash `_.mapKeys(object, iteratee)`: builds a fresh object, assigning
`result[iteratee(value, key)] = value` for each own key in order. -/
def mapKeys {V : Type} (iteratee : V → String → String) (obj : JsObj V) : JsObj V :=
  obj.foldl (fun acc p => objInsert acc (iteratee p.2 p.1) p.2) []

/-- `SimulatorDriver.renameUDID(_value, key)`. -/
def renameUDID {V : Type} (_value : V) (key : String) : String :=
  if key = "udid" then "id" else key

/-- `SimulatorDriver.remapSimUtilsObject(device)`. -/
def remapSimUtilsObject {V : Type} (device : JsObj V) : JsObj V :=
  mapKeys renameUDID device

/-- Statement of the spec's normalization contract, for comparison with
`remapSimUtilsObject`: the key `udid` is renamed to `id` in place and every
other key and every value is left unchanged. -/
def renameInPlace {V : Type} (device : JsObj V) : JsObj V :=
  device.map (fun p => (renameUDID p.2 p.1, p.2))

/-- Lifecycle events emitted through `this.emitter`. -/
inductive Event
  | bootDevice (coldBoot : Bool) (deviceId : String)
  | beforeLaunchApp (bundleId deviceId : String) (launchArgs : List String)
  | launchApp (bundleId deviceId : String) (launchArgs : List String) (pid : Nat)
  | shutdownDevice (deviceId : String)
deriving DecidableEq, Repr

/-- Observable actions of a driver method, in the order they happen. A
backend action is recorded when the call is issued, whether or not it
succeeds. -/
inductive Action
  | emit (e : Event)
  | backendBoot (deviceId : String)
  | backendLaunch (deviceId bundleId : String) (launchArgs : List String)
  | backendTerminate (deviceId bundleId : String)
  | backendShutdown (deviceId : String)
  | backendReset (deviceId : String)
  | backendGetDevices (properties : String)
  | registryAcquire (name : String)
  | registryFree (deviceId : String)
  | superCleanup (deviceId bundleId : String)
  | logError (event msg : String)
deriving DecidableEq, Repr

/-- The events among a list of actions, in emission order. -/
def emittedEvents (tr : List Action) : List Event :=
  tr.filterMap (fun a => match a with | .emit e => some e | _ => none)

/-- Abstract `AppleSimUtils` backend: each call either returns its result or
throws. Device descriptors carry values of a fixed opaque type (`Nat` here);
the driver never inspects descriptor values. -/
structure Backend where
  boot : String → Except Err Bool
  launch : String → String → List String → Except Err Nat
  terminate : String → String → Except Err Unit
  shutdown : String → Except Err Unit
  resetContentAndSettings : String → Except Err Unit
  getDevicesWithProperties : String → Except Err (List (JsObj Nat))

/-- Abstract `DeviceRegistry.acquireDevice`: returns a device id, a falsy
value (`none`), or throws. -/
structure Registry where
  acquireDevice : String → Except Err (Option String)

/-- `SimulatorDriver.boot(deviceId)`. -/
def boot (b : Backend) (deviceId : String) : List Action × Except Err Unit :=
  match b.boot deviceId with
  | .error e => ([Action.backendBoot deviceId], .error e)
  | .ok coldBoot =>
      ([Action.backendBoot deviceId, Action.emit (Event.bootDevice coldBoot deviceId)], .ok ())

/-- `SimulatorDriver.launchApp(deviceId, bundleId, launchArgs)`. -/
def launchApp (b : Backend) (deviceId bundleId : String) (launchArgs : List String) :
    List Action × Except Err Nat :=
  match b.launch deviceId bundleId launchArgs with
  | .error e =>
      ([Action.emit (Event.beforeLaunchApp bundleId deviceId launchArgs),
        Action.backendLaunch deviceId bundleId launchArgs], .error e)
  | .ok pid =>
      ([Action.emit (Event.beforeLaunchApp bundleId deviceId launchArgs),
        Action.backendLaunch deviceId bundleId launchArgs,
        Action.emit (Event.launchApp bundleId deviceId launchArgs pid)], .ok pid)

/-- `SimulatorDriver.terminate(deviceId, bundleId)`: delegates to the backend
unconditionally; no lifecycle-state precondition is checked. -/
def terminate (b : Backend) (deviceId bundleId : String) : List Action × Except Err Unit :=
  match b.terminate deviceId bundleId with
  | .error e => ([Action.backendTerminate deviceId bundleId], .error e)
  | .ok _ => ([Action.backendTerminate deviceId bundleId], .ok ())

/-- `SimulatorDriver.shutdown(deviceId)`. -/
def shutdown (b : Backend) (deviceId : String) : List Action × Except Err Unit :=
  match b.shutdown deviceId with
  | .error e => ([Action.backendShutdown deviceId], .error e)
  | .ok _ =>
      ([Action.backendShutdown deviceId, Action.emit (Event.shutdownDevice deviceId)], .ok ())

/-- `SimulatorDriver.resetContentAndSettings(deviceId)`: the driver's own
`shutdown`, then the backend wipe, then the driver's own `boot`. -/
def resetContentAndSettings (b : Backend) (deviceId : String) :
    List Action × Except Err Unit :=
  match shutdown b deviceId with
  | (tr1, .error e) => (tr1, .error e)
  | (tr1, .ok _) =>
      match b.resetContentAndSettings deviceId with
      | .error e => (tr1 ++ [Action.backendReset deviceId], .error e)
      | .ok _ =>
          match boot b deviceId with
          | (tr2, r2) => (tr1 ++ [Action.backendReset deviceId] ++ tr2, r2)

/-- `SimulatorDriver.acquireFreeDevice(name)`. -/
def acquireFreeDevice (b : Backend) (reg : Registry) (name : String) :
    List Action × Except Err (Option String) :=
  match reg.acquireDevice name with
  | .error e => ([Action.registryAcquire name], .error e)
  | .ok none =>
      ([Action.registryAcquire name,
        Action.logError "ACQUIRE_DEVICE_ERROR" ("Unable to acquire free device: " ++ name)],
       .ok none)
  | .ok (some deviceId) =>
      match boot b deviceId with
      | (tr, .error e) => (Action.registryAcquire name :: tr, .error e)
      | (tr, .ok _) => (Action.registryAcquire name :: tr, .ok (some deviceId))

/-- The effective `SimulatorDriver._createDeviceWithProperties(properties)`:
the method is declared twice in the class body and JavaScript keeps the last
declaration, which enumerates via the backend's `getDevicesWithProperties`
and returns the whole remapped list. -/
def createDeviceWithProperties (b : Backend) (properties : String) :
    List Action × Except Err (List (JsObj Nat)) :=
  match b.getDevicesWithProperties properties with
  | .error e => ([Action.backendGetDevices properties], .error e)
  | .ok devices =>
      ([Action.backendGetDevices properties], .ok (devices.map remapSimUtilsObject))

/-- Ownership bookkeeping of the registry: the set of owned device ids. -/
structure RegistryState where
  owned : List String
deriving DecidableEq, Repr

/-- Modelled from the spec: `DeviceRegistry.freeDevice(deviceId)` is not under
`src/`; per the spec it clears the ownership bookkeeping for `deviceId`, is a
no-op when the id was never tracked as owned, and never throws — hence a
total function on the bookkeeping state. -/
def freeDevice (s : RegistryState) (deviceId : String) : RegistryState :=
  ⟨s.owned.filter (fun d => d ≠ deviceId)⟩

/-- `SimulatorDriver.cleanup(deviceId, bundleId)`: frees the device in the
registry, then performs the superclass teardown (opaque here, supplied as its
outcome `superResult`). -/
def cleanup (s : RegistryState) (superResult : Except Err Unit)
    (deviceId bundleId : String) :
    RegistryState × List Action × Except Err Unit :=
  let s1 := freeDevice s deviceId
  match superResult with
  | .error e =>
      (s1, [Action.registryFree deviceId, Action.superCleanup deviceId bundleId], .error e)
  | .ok _ =>
      (s1, [Action.registryFree deviceId, Action.superCleanup deviceId bundleId], .ok ())

/-- A concrete healthy backend, used to instantiate the general theorems. -/
def testBackend : Backend where
  boot := fun _ => .ok true
  launch := fun _ _ _ => .ok 1234
  terminate := fun _ _ => .ok ()
  shutdown := fun _ => .ok ()
  resetContentAndSettings := fun _ => .ok ()
  getDevicesWithProperties := fun _ => .ok [[("udid", 1)], [("udid", 2)]]

/-- A concrete registry that hands out the device id `ABCD-1`. -/
def testRegistry : Registry where
  acquireDevice := fun _ => .ok (some "ABCD-1")

/-- A concrete registry whose allocation fails (returns a falsy id). -/
def emptyRegistry : Registry where
  acquireDevice := fun _ => .ok none

/-- C1: `launchApp(deviceId, bundleId, launchArgs)` emits
`beforeLaunchApp{bundleId, deviceId, launchArgs}` strictly before the backend
launch call; when the backend returns a pid it emits
`launchApp{bundleId, deviceId, launchArgs, pid}` strictly after, both events
carrying the same `deviceId` and `bundleId`, and the call returns that pid;
when the backend throws, only the before-event was emitted. -/
theorem launchApp_emits_before_and_after (b : Backend)
    (deviceId bundleId : String) (launchArgs : List String) :
    (∀ pid, b.launch deviceId bundleId launchArgs = .ok pid →
      launchApp b deviceId bundleId launchArgs =
        ([Action.emit (Event.beforeLaunchApp bundleId deviceId launchArgs),
          Action.backendLaunch deviceId bundleId launchArgs,
          Action.emit (Event.launchApp bundleId deviceId launchArgs pid)], .ok pid))
    ∧ (∀ e, b.launch deviceId bundleId launchArgs = .error e →
      launchApp b deviceId bundleId launchArgs =
        ([Action.emit (Event.beforeLaunchApp bundleId deviceId launchArgs),
          Action.backendLaunch deviceId bundleId launchArgs], .error e)) := by
  constructor
  · intro pid h
    simp [launchApp, h]
  · intro e h
    simp [launchApp, h]

/-- Witness for C1 on the concrete backend: the pid 1234 is returned and the
trace is exactly before-event, backend call, after-event. -/
theorem launchApp_emits_before_and_after_witness :
    launchApp testBackend "ABCD-1" "com.example.app" ["-arg"] =
      ([Action.emit (Event.beforeLaunchApp "com.example.app" "ABCD-1" ["-arg"]),
        Action.backendLaunch "ABCD-1" "com.example.app" ["-arg"],
        Action.emit (Event.launchApp "com.example.app" "ABCD-1" ["-arg"] 1234)], .ok 1234) :=
  (launchApp_emits_before_and_after testBackend "ABCD-1" "com.example.app" ["-arg"]).1
    1234 rfl

/-- C2: `boot(deviceId)` emits `bootDevice{coldBoot, deviceId}` — with
`coldBoot` the value the backend returned — only after the backend boot call
succeeds; when the backend boot call throws, no `bootDevice` event is
emitted. -/
theorem bootDevice_only_after_backend_success (b : Backend) (deviceId : String) :
    (∀ e, b.boot deviceId = .error e →
      boot b deviceId = ([Action.backendBoot deviceId], .error e))
    ∧ (∀ coldBoot, b.boot deviceId = .ok coldBoot →
      boot b deviceId =
        ([Action.backendBoot deviceId,
          Action.emit (Event.bootDevice coldBoot deviceId)], .ok ())) := by
  constructor
  · intro e h
    simp [boot, h]
  · intro coldBoot h
    simp [boot, h]

/-- Witness for C2: a backend whose boot call throws produces no event. -/
theorem bootDevice_only_after_backend_success_witness :
    boot { testBackend with boot := fun _ => .error "boot failed" } "ABCD-1" =
      ([Action.backendBoot "ABCD-1"], .error "boot failed") :=
  (bootDevice_only_after_backend_success
    { testBackend with boot := fun _ => .error "boot failed" } "ABCD-1").1
    "boot failed" rfl

/-- C3: `shutdown(deviceId)` emits `shutdownDevice{deviceId}` only after the
backend shutdown call completes successfully; when the backend shutdown
throws, no `shutdownDevice` event is emitted. -/
theorem shutdownDevice_only_after_backend_success (b : Backend) (deviceId : String) :
    (∀ e, b.shutdown deviceId = .error e →
      shutdown b deviceId = ([Action.backendShutdown deviceId], .error e))
    ∧ (b.shutdown deviceId = .ok () →
      shutdown b deviceId =
        ([Action.backendShutdown deviceId,
          Action.emit (Event.shutdownDevice deviceId)], .ok ())) := by
  constructor
  · intro e h
    simp [shutdown, h]
  · intro h
    simp [shutdown, h]

/-- Witness for C3: a backend whose shutdown call throws produces no event. -/
theorem shutdownDevice_only_after_backend_success_witness :
    shutdown { testBackend with shutdown := fun _ => .error "shutdown failed" } "ABCD-1" =
      ([Action.backendShutdown "ABCD-1"], .error "shutdown failed") :=
  (shutdownDevice_only_after_backend_success
    { testBackend with shutdown := fun _ => .error "shutdown failed" } "ABCD-1").1
    "shutdown failed" rfl

/-- C4: when the registry returns a device id, `acquireFreeDevice` boots it —
the id is returned only after the backend boot succeeded and the `bootDevice`
event was emitted; when the registry returns `none`, the driver logs an
`ACQUIRE_DEVICE_ERROR` line and returns `none` without throwing. -/
theorem acquireFreeDevice_boots_or_logs (b : Backend) (reg : Registry) (name : String) :
    (reg.acquireDevice name = .ok none →
      acquireFreeDevice b reg name =
        ([Action.registryAcquire name,
          Action.logError "ACQUIRE_DEVICE_ERROR" ("Unable to acquire free device: " ++ name)],
         .ok none))
    ∧ (∀ deviceId coldBoot, reg.acquireDevice name = .ok (some deviceId) →
        b.boot deviceId = .ok coldBoot →
        acquireFreeDevice b reg name =
          ([Action.registryAcquire name, Action.backendBoot deviceId,
            Action.emit (Event.bootDevice coldBoot deviceId)], .ok (some deviceId)))
    ∧ (∀ deviceId e, reg.acquireDevice name = .ok (some deviceId) →
        b.boot deviceId = .error e →
        acquireFreeDevice b reg name =
          ([Action.registryAcquire name, Action.backendBoot deviceId], .error e)) := by
  refine ⟨?_, ?_, ?_⟩
  · intro h
    simp [acquireFreeDevice, h]
  · intro deviceId coldBoot h hb
    simp [acquireFreeDevice, boot, h, hb]
  · intro deviceId e h hb
    simp [acquireFreeDevice, boot, h, hb]

/-- Witness for C4: on the concrete registry and backend, acquiring yields
`ABCD-1` only after the boot, with the `bootDevice` event in the trace. -/
theorem acquireFreeDevice_boots_or_logs_witness :
    acquireFreeDevice testBackend testRegistry "iPhone-Test" =
      ([Action.registryAcquire "iPhone-Test", Action.backendBoot "ABCD-1",
        Action.emit (Event.bootDevice true "ABCD-1")], .ok (some "ABCD-1")) :=
  (acquireFreeDevice_boots_or_logs testBackend testRegistry "iPhone-Test").2.1
    "ABCD-1" true rfl rfl

/-- C6: `cleanup(deviceId, bundleId)` frees the device in the registry first,
before the superclass teardown, for every prior bookkeeping state and every
teardown outcome; `freeDevice` is total (never throws), so the id is absent
from the owned set afterwards even when the teardown fails. -/
theorem cleanup_frees_first_always (s : RegistryState) (superResult : Except Err Unit)
    (deviceId bundleId : String) :
    (cleanup s superResult deviceId bundleId).2.1 =
      [Action.registryFree deviceId, Action.superCleanup deviceId bundleId]
    ∧ (cleanup s superResult deviceId bundleId).1 = freeDevice s deviceId
    ∧ deviceId ∉ (cleanup s superResult deviceId bundleId).1.owned
    ∧ (∀ e, superResult = .error e →
        (cleanup s superResult deviceId bundleId).2.2 = .error e) := by
  cases superResult with
  | error e =>
      refine ⟨rfl, rfl, ?_, ?_⟩
      · simp [cleanup, freeDevice]
      · intro e' h
        cases h
        rfl
  | ok u =>
      refine ⟨rfl, rfl, ?_, ?_⟩
      · simp [cleanup, freeDevice]
      · intro e' h
        cases h

/-- Witness for C6: a state owning `ABCD-1` with a failing teardown still has
`ABCD-1` freed first. -/
theorem cleanup_frees_first_always_witness :
    (cleanup ⟨["ABCD-1"]⟩ (.error "wedged") "ABCD-1" "com.example.app").2.1 =
      [Action.registryFree "ABCD-1", Action.superCleanup "ABCD-1" "com.example.app"]
    ∧ "ABCD-1" ∉ (cleanup ⟨["ABCD-1"]⟩ (.error "wedged") "ABCD-1" "com.example.app").1.owned
    ∧ (cleanup ⟨["ABCD-1"]⟩ (.error "wedged") "ABCD-1" "com.example.app").2.2 =
        .error "wedged" :=
  ⟨(cleanup_frees_first_always ⟨["ABCD-1"]⟩ (.error "wedged")
      "ABCD-1" "com.example.app").1,
   (cleanup_frees_first_always ⟨["ABCD-1"]⟩ (.error "wedged")
      "ABCD-1" "com.example.app").2.2.1,
   (cleanup_frees_first_always ⟨["ABCD-1"]⟩ (.error "wedged")
      "ABCD-1" "com.example.app").2.2.2 "wedged" rfl⟩

/-- C7 counterexample: in a session where no app was ever launched — the
device `ABCD-1` is at most `Booted`, not `Running` — `terminate` is not
rejected as a precondition violation: it delegates to the backend (the
backend terminate call is in the trace) and returns the backend's success. -/
theorem terminate_not_rejected_when_not_running :
    terminate testBackend "ABCD-1" "com.example.app" =
      ([Action.backendTerminate "ABCD-1" "com.example.app"], .ok ()) := by
  rfl

/-- C7 amended: `terminate(deviceId, bundleId)` enforces no lifecycle-state
precondition — it delegates to the backend terminate primitive
unconditionally, and the backend outcome (success or failure) is propagated
to the caller unchanged, never swallowed. -/
theorem terminate_always_delegates (b : Backend) (deviceId bundleId : String) :
    (terminate b deviceId bundleId).1 = [Action.backendTerminate deviceId bundleId]
    ∧ (∀ e, b.terminate deviceId bundleId = .error e →
        (terminate b deviceId bundleId).2 = .error e)
    ∧ (b.terminate deviceId bundleId = .ok () →
        (terminate b deviceId bundleId).2 = .ok ()) := by
  refine ⟨?_, ?_, ?_⟩
  · cases h : b.terminate deviceId bundleId <;> simp [terminate, h]
  · intro e h
    simp [terminate, h]
  · intro h
    simp [terminate, h]

/-- Witness for C7 amended: a backend whose terminate throws has the error
surfaced, with the backend call in the trace. -/
theorem terminate_always_delegates_witness :
    (terminate { testBackend with terminate := fun _ _ => .error "not running" }
        "ABCD-1" "com.example.app").1 =
      [Action.backendTerminate "ABCD-1" "com.example.app"]
    ∧ (terminate { testBackend with terminate := fun _ _ => .error "not running" }
        "ABCD-1" "com.example.app").2 = .error "not running" :=
  ⟨(terminate_always_delegates
      { testBackend with terminate := fun _ _ => .error "not running" }
      "ABCD-1" "com.example.app").1,
   (terminate_always_delegates
      { testBackend with terminate := fun _ _ => .error "not running" }
      "ABCD-1" "com.example.app").2.1 "not running" rfl⟩

/-- C8: `resetContentAndSettings(deviceId)` performs exactly shutdown, then
the backend wipe, then re-boot; on success the device ends booted (the final
backend call is the boot, acknowledged by its `bootDevice` event) and the
call succeeds; when any step throws, the error propagates and the remaining
steps are not performed. -/
theorem resetContentAndSettings_sequence (b : Backend) (deviceId : String) :
    (∀ e, b.shutdown deviceId = .error e →
      resetContentAndSettings b deviceId = ([Action.backendShutdown deviceId], .error e))
    ∧ (∀ e, b.shutdown deviceId = .ok () → b.resetContentAndSettings deviceId = .error e →
      resetContentAndSettings b deviceId =
        ([Action.backendShutdown deviceId, Action.emit (Event.shutdownDevice deviceId),
          Action.backendReset deviceId], .error e))
    ∧ (∀ e, b.shutdown deviceId = .ok () → b.resetContentAndSettings deviceId = .ok () →
        b.boot deviceId = .error e →
      resetContentAndSettings b deviceId =
        ([Action.backendShutdown deviceId, Action.emit (Event.shutdownDevice deviceId),
          Action.backendReset deviceId, Action.backendBoot deviceId], .error e))
    ∧ (∀ coldBoot, b.shutdown deviceId = .ok () → b.resetContentAndSettings deviceId = .ok () →
        b.boot deviceId = .ok coldBoot →
      resetContentAndSettings b deviceId =
        ([Action.backendShutdown deviceId, Action.emit (Event.shutdownDevice deviceId),
          Action.backendReset deviceId, Action.backendBoot deviceId,
          Action.emit (Event.bootDevice coldBoot deviceId)], .ok ())) := by
  refine ⟨?_, ?_, ?_, ?_⟩
  · intro e hs
    simp [resetContentAndSettings, shutdown, hs]
  · intro e hs hr
    simp [resetContentAndSettings, shutdown, hs, hr]
  · intro e hs hr hb
    simp [resetContentAndSettings, shutdown, boot, hs, hr, hb]
  · intro coldBoot hs hr hb
    simp [resetContentAndSettings, shutdown, boot, hs, hr, hb]

/-- Witness for C8: the healthy backend runs the full five-action sequence
and succeeds. -/
theorem resetContentAndSettings_sequence_witness :
    resetContentAndSettings testBackend "ABCD-1" =
      ([Action.backendShutdown "ABCD-1", Action.emit (Event.shutdownDevice "ABCD-1"),
        Action.backendReset "ABCD-1", Action.backendBoot "ABCD-1",
        Action.emit (Event.bootDevice true "ABCD-1")], .ok ()) :=
  (resetContentAndSettings_sequence testBackend "ABCD-1").2.2.2 true rfl rfl rfl

/-- C10: because `resetContentAndSettings` calls the driver's own `shutdown`
and `boot`, a successful reset emits `shutdownDevice` (before the wipe)
followed by `bootDevice` (after the re-boot); and when the call fails after
the backend shutdown succeeded, a `shutdownDevice` event has been emitted
with no subsequent `bootDevice` event. -/
theorem reset_emits_shutdown_then_boot_events (b : Backend) (deviceId : String) :
    (∀ coldBoot, b.shutdown deviceId = .ok () → b.resetContentAndSettings deviceId = .ok () →
        b.boot deviceId = .ok coldBoot →
      emittedEvents (resetContentAndSettings b deviceId).1 =
        [Event.shutdownDevice deviceId, Event.bootDevice coldBoot deviceId])
    ∧ (∀ e, b.shutdown deviceId = .ok () →
        (resetContentAndSettings b deviceId).2 = .error e →
      emittedEvents (resetContentAndSettings b deviceId).1 =
        [Event.shutdownDevice deviceId]) := by
  constructor
  · intro coldBoot hs hr hb
    simp [resetContentAndSettings, shutdown, boot, hs, hr, hb, emittedEvents]
  · intro e hs herr
    cases hr : b.resetContentAndSettings deviceId with
    | error e' =>
        simp [resetContentAndSettings, shutdown, hs, hr, emittedEvents]
    | ok u =>
        cases hb : b.boot deviceId with
        | error e' =>
            simp [resetContentAndSettings, shutdown, boot, hs, hr, hb, emittedEvents]
        | ok coldBoot =>
            rw [resetContentAndSettings] at herr
            simp [shutdown, boot, hs, hr, hb] at herr

/-- Witness for C10: with a backend whose wipe throws, the only emitted event
of the reset is `shutdownDevice`. -/
theorem reset_emits_shutdown_then_boot_events_witness :
    emittedEvents (resetContentAndSettings
      { testBackend with resetContentAndSettings := fun _ => .error "wipe failed" }
      "ABCD-1").1 = [Event.shutdownDevice "ABCD-1"] :=
  (reset_emits_shutdown_then_boot_events
      { testBackend with resetContentAndSettings := fun _ => .error "wipe failed" }
      "ABCD-1").2 "wipe failed" rfl rfl

/-- C5: the effective `_createDeviceWithProperties` (the last of the two
declarations in the class body) does not ask the backend to create a device:
on a backend enumerating two existing devices it performs only the
`getDevicesWithProperties` call and returns the whole remapped list of two
descriptors — a list produced by mere enumeration, not a single created
descriptor as the registry's `createDeviceWithProperties` capability
requires. -/
theorem createDeviceWithProperties_returns_enumeration_list :
    createDeviceWithProperties testBackend "iPhone-Test" =
      ([Action.backendGetDevices "iPhone-Test"],
       .ok [[("id", 1)], [("id", 2)]]) := by
  rfl

lemma objInsert_of_not_mem {V : Type} (obj : JsObj V) (k : String) (v : V)
    (h : k ∉ objKeys obj) : objInsert obj k v = obj ++ [(k, v)] := by
  rw [objInsert, if_neg]
  intro hc
  rw [List.any_eq_true] at hc
  obtain ⟨p, hp, hpk⟩ := hc
  exact h (List.mem_map.mpr ⟨p, hp, by simpa using hpk⟩)

lemma foldl_objInsert_append {V : Type} (f : V → String → String) (obj : JsObj V) :
    ∀ acc : JsObj V,
      (obj.map (fun p => f p.2 p.1)).Nodup →
      (∀ p ∈ obj, f p.2 p.1 ∉ objKeys acc) →
      obj.foldl (fun acc p => objInsert acc (f p.2 p.1) p.2) acc
        = acc ++ obj.map (fun p => (f p.2 p.1, p.2)) := by
  induction obj with
  | nil =>
      intro acc _ _
      simp
  | cons q tl ih =>
      intro acc hnd hdisj
      have hhd : f q.2 q.1 ∉ tl.map (fun p => f p.2 p.1) := by
        simp only [List.map_cons, List.nodup_cons] at hnd
        exact hnd.1
      have hnd' : (tl.map (fun p => f p.2 p.1)).Nodup := by
        simp only [List.map_cons, List.nodup_cons] at hnd
        exact hnd.2
      have hdisj' : ∀ p ∈ tl, f p.2 p.1 ∉ objKeys (acc ++ [(f q.2 q.1, q.2)]) := by
        intro p hp
        simp only [objKeys, List.map_append, List.mem_append, List.map_cons, List.map_nil,
          List.mem_singleton, not_or]
        refine ⟨hdisj p (List.mem_cons_of_mem q hp), ?_⟩
        intro hc
        exact hhd (hc ▸ List.mem_map.mpr ⟨p, hp, rfl⟩)
      simp only [List.foldl_cons]
      rw [objInsert_of_not_mem acc (f q.2 q.1) q.2 (hdisj q (List.mem_cons_self q tl))]
      rw [ih (acc ++ [(f q.2 q.1, q.2)]) hnd' hdisj']
      simp

lemma renamed_keys_nodup {V : Type} (device : JsObj V)
    (h1 : "id" ∉ objKeys device) (h2 : (objKeys device).Nodup) :
    (device.map (fun p => renameUDID p.2 p.1)).Nodup := by
  have heq : device.map (fun p => renameUDID p.2 p.1)
      = (objKeys device).map (fun k => if k = "udid" then "id" else k) := by
    simp [objKeys, renameUDID, List.map_map, Function.comp_def]
  rw [heq]
  refine List.Nodup.map_on ?_ h2
  intro x hx y hy hxy
  by_cases hxu : x = "udid" <;> by_cases hyu : y = "udid"
  · rw [hxu, hyu]
  · rw [if_pos hxu, if_neg hyu] at hxy
    exfalso
    apply h1
    rw [hxy]
    exact hy
  · rw [if_neg hxu, if_pos hyu] at hxy
    exfalso
    apply h1
    rw [← hxy]
    exact hx
  · rw [if_neg hxu, if_neg hyu] at hxy
    exact hxy

/-- C9 counterexample: on the well-formed descriptor `{udid: 0, id: 1}` the
remap is `{id: 1}` — the value stored under `udid` is lost and the key count
shrinks — so `remapSimUtilsObject` does not rename `udid` to `id` leaving
every other key and value unchanged (which would give `renameInPlace`). -/
theorem remapSimUtilsObject_id_collision :
    remapSimUtilsObject ([("udid", 0), ("id", 1)] : JsObj Nat) = [("id", 1)]
    ∧ remapSimUtilsObject ([("udid", 0), ("id", 1)] : JsObj Nat) ≠
        renameInPlace ([("udid", 0), ("id", 1)] : JsObj Nat) := by
  constructor
  · rfl
  · decide

/-- C9 amended: on every descriptor with distinct keys that does not already
carry the key `id` — every descriptor the backend actually produces —
`remapSimUtilsObject` renames the key `udid` to `id` in place and leaves
every other key and every value unchanged. -/
theorem remapSimUtilsObject_renames_in_place {V : Type} (device : JsObj V)
    (h1 : "id" ∉ objKeys device) (h2 : (objKeys device).Nodup) :
    remapSimUtilsObject device = renameInPlace device := by
  rw [remapSimUtilsObject, mapKeys, renameInPlace]
  rw [foldl_objInsert_append (fun v k => renameUDID v k) device []
        (renamed_keys_nodup device h1 h2) (by intro p _; simp [objKeys])]
  simp

/-- Witness for C9 amended: a two-key descriptor is renamed in place. -/
theorem remapSimUtilsObject_renames_in_place_witness :
    "id" ∉ objKeys ([("udid", 0), ("name", 7)] : JsObj Nat)
    ∧ (objKeys ([("udid", 0), ("name", 7)] : JsObj Nat)).Nodup
    ∧ remapSimUtilsObject ([("udid", 0), ("name", 7)] : JsObj Nat) =
        [("id", 0), ("name", 7)] :=
  ⟨by decide, by decide,
   (remapSimUtilsObject_renames_in_place ([("udid", 0), ("name", 7)] : JsObj Nat)
      (by decide) (by decide)).trans rfl⟩

end Detox
